import Mathlib

/-!
Shallow embedding of the RTA-Injury-Analysis front-end (src/App.tsx,
src/components/InjuryChart.tsx, src/services/geminiService.ts,
src/types.ts) and verification of the specification claims.

Numbers: JavaScript floating-point values that the code only multiplies,
rounds and compares are modelled as exact rationals (ℚ); the operations
involved (multiplication by 100 or by the power of two 32768, Math.round,
ToInt16 truncation) are exact on the float inputs in question, so ℚ is a
faithful carrier.  Browser / vendor-API effects (alerts, resource release
calls) are modelled as explicit event traces; fallibility of a release
step is an explicit fault parameter.
-/

namespace RTA

/-- types.ts: PredictedInjury. `probability` is a number in [0,1]. -/
structure PredictedInjury where
  bodyRegion : String
  injuryName : String
  probability : ℚ
  physicsExplanation : String
  anatomyVulnerability : String
deriving DecidableEq

/-- types.ts: TraumaAnalysis. `severityScore` is a string drawn from the
enum Low | Moderate | High | Critical, kept as String because App.tsx's
`getSeverityColor` switches on the raw string. -/
structure TraumaAnalysis where
  summary : String
  predictedInjuries : List PredictedInjury
  severityScore : String
  immediateActions : List String
deriving DecidableEq

/-- types.ts: AccidentData. -/
structure AccidentData where
  accidentDescription : String
deriving DecidableEq

/-! ## Numeric helpers: Math.round and ToInt16 -/

/-- JavaScript Math.round: round half toward positive infinity,
`Math.round x = ⌊x + 1/2⌋`. -/
def jsRound (q : ℚ) : ℤ := ⌊q + 1/2⌋

/-- JavaScript truncation toward zero (the integer step of ToInt16). -/
def jsTrunc (q : ℚ) : ℤ := if 0 ≤ q then ⌊q⌋ else ⌈q⌉

/-- ECMAScript ToInt16, applied when a number is stored into an
Int16Array: truncate toward zero, reduce modulo 2^16 into [0, 2^16), then
reinterpret the top half as negative.  No clamping anywhere. -/
def toInt16 (q : ℚ) : ℤ :=
  let int16bit := jsTrunc q % 65536
  if 32768 ≤ int16bit then int16bit - 65536 else int16bit

/-! ## App.tsx helpers: encode (btoa of the byte buffer) and createBlob -/

/-- The standard base64 alphabet used by btoa. -/
def b64Alphabet : List Char :=
  "ABCDEFGHIJKLMNOPQRSTUVWXYZabcdefghijklmnopqrstuvwxyz0123456789+/".toList

/-- Character for one 6-bit group. -/
def b64Char (n : Nat) : Char := b64Alphabet.getD n '='

/-- Base64 of a byte list (each byte a Nat < 256), with '=' padding,
as produced by btoa on the corresponding binary string. -/
def base64Encode : List Nat → List Char
  | [] => []
  | [a] => [b64Char (a / 4), b64Char (a % 4 * 16), '=', '=']
  | [a, b] => [b64Char (a / 4), b64Char (a % 4 * 16 + b / 16), b64Char (b % 16 * 4), '=']
  | a :: b :: c :: rest =>
      b64Char (a / 4) :: b64Char (a % 4 * 16 + b / 16) ::
      b64Char (b % 16 * 4 + c / 64) :: b64Char (c % 64) :: base64Encode rest

/-- App.tsx `encode`: builds a binary string from the bytes and applies
btoa, i.e. base64-encodes the bytes. -/
def encode (bytes : List Nat) : String := String.mk (base64Encode bytes)

/-- Little-endian byte pair of a 16-bit integer as laid out by an
Int16Array buffer viewed through Uint8Array. -/
def int16LEBytes (v : ℤ) : List Nat :=
  let u := (v % 65536).toNat
  [u % 256, u / 256]

/-- Result shape of App.tsx `createBlob`. -/
structure PcmBlob where
  data : String
  mimeType : String
deriving DecidableEq

/-- App.tsx `createBlob`: for each float sample, `int16[i] = data[i] * 32768`
(an Int16Array store, hence ToInt16 conversion), then base64-encode the
underlying byte buffer and tag it with the fixed PCM MIME type. -/
def createBlob (data : List ℚ) : PcmBlob :=
  { data := encode ((data.map fun s => int16LEBytes (toInt16 (s * 32768))).flatten)
    mimeType := "audio/pcm;rate=16000" }

/-! ## InjuryChart.tsx -/

/-- One entry of the chart's `data` array: `{ name: i.bodyRegion,
prob: Math.round(i.probability * 100) }`. -/
structure ChartDatum where
  name : String
  prob : ℤ
deriving DecidableEq

/-- The per-injury map step of InjuryChart. -/
def chartDatumOf (i : PredictedInjury) : ChartDatum :=
  { name := i.bodyRegion, prob := jsRound (i.probability * 100) }

/-- Stable descending insertion: a later element is placed after every
earlier element of greater-or-equal prob, matching the stable
Array.prototype.sort with comparator `(a, b) => b.prob - a.prob`. -/
def insertChartDesc (x : ChartDatum) : List ChartDatum → List ChartDatum
  | [] => [x]
  | y :: ys => if y.prob < x.prob then x :: y :: ys else y :: insertChartDesc x ys

/-- Stable sort by descending prob (insertion sort, left to right). -/
def sortChartDesc (l : List ChartDatum) : List ChartDatum :=
  l.foldl (fun acc x => insertChartDesc x acc) []

/-- InjuryChart.tsx lines 11-14: map each injury to its chart datum and
sort descending by prob. -/
def injuryChartData (injuries : List PredictedInjury) : List ChartDatum :=
  sortChartDesc (injuries.map chartDatumOf)

/-- InjuryChart.tsx `getBarColor`: strict greater-than thresholds on the
0-100 integer. -/
def getBarColor (prob : ℤ) : String :=
  if 75 < prob then "#ef4444"
  else if 40 < prob then "#f59e0b"
  else "#10b981"

/-! ## geminiService.ts: analyzeTraumaData response handling -/

/-- geminiService.ts line 58: `response.text || "{}"` — both an absent
text and the empty string are falsy and are replaced by "\x7b\x7d". -/
def effectiveResponseText (responseText : Option String) : String :=
  match responseText with
  | none => "{}"
  | some t => if t = "" then "{}" else t

/-- geminiService.ts lines 57-62, the post-response step of
`analyzeTraumaData`: parse the (defaulted) response text with the
platform JSON parser — modelled as an explicit partial parse function
over an arbitrary parsed-value type `J` — returning the parsed value
as-is on success and throwing the fixed error message on failure.
No schema re-validation happens after the parse. -/
def analyzeTraumaData {J : Type} (parse : String → Option J)
    (responseText : Option String) : Except String J :=
  match parse (effectiveResponseText responseText) with
  | some v => Except.ok v
  | none => Except.error "Invalid analysis data received from AI"

/-! ## App.tsx component state and handlers -/

/-- The ECMAScript WhiteSpace / LineTerminator set recognised by
String.prototype.trim. -/
def isJsWhitespace (c : Char) : Bool :=
  c.toNat = 0x9 || c.toNat = 0xa || c.toNat = 0xb || c.toNat = 0xc ||
  c.toNat = 0xd || c.toNat = 0x20 || c.toNat = 0xa0 || c.toNat = 0x1680 ||
  (0x2000 ≤ c.toNat && c.toNat ≤ 0x200a) ||
  c.toNat = 0x2028 || c.toNat = 0x2029 || c.toNat = 0x202f ||
  c.toNat = 0x205f || c.toNat = 0x3000 || c.toNat = 0xfeff

/-- JavaScript String.prototype.trim: strip leading and trailing
whitespace. -/
def jsTrim (s : String) : String :=
  String.mk (((s.toList.dropWhile isJsWhitespace).reverse.dropWhile
    isJsWhitespace).reverse)

/-- The component state of App.tsx: the four useState pieces plus the
three useRef resource handles.  `streamTracks = some ids` models a held
MediaStream whose tracks are identified by `ids`; `sessionRef` and
`audioContextRef` record whether the corresponding ref currently holds a
value. -/
structure AppState where
  loading : Bool
  analysis : Option TraumaAnalysis
  formData : AccidentData
  isListening : Bool
  sessionRef : Bool
  streamTracks : Option (List Nat)
  audioContextRef : Bool
deriving DecidableEq

/-- The initial component state (useState / useRef initialisers). -/
def initialState : AppState :=
  { loading := false
    analysis := none
    formData := { accidentDescription := "" }
    isListening := false
    sessionRef := false
    streamTracks := none
    audioContextRef := false }

/-- Observable resource-release calls made during teardown. -/
inductive ReleaseEvent
  | sessionClose
  | trackStop (id : Nat)
  | audioContextClose
deriving DecidableEq

/-- Fault model for the browser-API release steps: whether stopping a
given track throws, and whether closing the audio context throws.  The
code contains no try/catch, so a thrown step aborts the rest of the
handler. -/
structure Faults where
  trackStopFails : Nat → Bool
  audioCloseFails : Bool

/-- The fault-free environment. -/
def noFaults : Faults := { trackStopFails := fun _ => false, audioCloseFails := false }

/-- Result of running a teardown: the state reached, the release calls
that happened (in order), and whether an exception escaped. -/
structure StopResult where
  state : AppState
  events : List ReleaseEvent
  threw : Bool
deriving DecidableEq

/-- `streamRef.current.getTracks().forEach(track => track.stop())`:
stops tracks left to right; a throwing stop aborts the loop and
propagates.  Returns the stop events that occurred and whether it threw. -/
def stopTracks (f : Faults) : List Nat → List ReleaseEvent × Bool
  | [] => ([], false)
  | t :: ts =>
    if f.trackStopFails t then ([], true)
    else
      let r := stopTracks f ts
      (ReleaseEvent.trackStop t :: r.1, r.2)

/-- App.tsx `stopListening` (lines 47-60), step by step:
nulls `sessionRef.current` without any close call on the session;
stops each stream track and nulls `streamRef.current`;
calls `audioContextRef.current.close()` and nulls the ref;
finally `setIsListening(false)`.  There is no try/catch, so a throwing
step skips everything after it. -/
def stopListening (s : AppState) (f : Faults) : StopResult :=
  let s1 := if s.sessionRef then { s with sessionRef := false } else s
  match s1.streamTracks with
  | some tracks =>
    let r := stopTracks f tracks
    if r.2 then { state := s1, events := r.1, threw := true }
    else
      let s2 := { s1 with streamTracks := none }
      if s2.audioContextRef then
        if f.audioCloseFails then
          { state := s2, events := r.1, threw := true }
        else
          { state := { s2 with audioContextRef := false, isListening := false }
            events := r.1 ++ [ReleaseEvent.audioContextClose], threw := false }
      else
        { state := { s2 with isListening := false }, events := r.1, threw := false }
  | none =>
    if s1.audioContextRef then
      if f.audioCloseFails then
        { state := s1, events := [], threw := true }
      else
        { state := { s1 with audioContextRef := false, isListening := false }
          events := [ReleaseEvent.audioContextClose], threw := false }
    else
      { state := { s1 with isListening := false }, events := [], threw := false }

/-- App.tsx onmessage transcript append (lines 91-94):
`prev + (prev ? ' ' : '') + text`. -/
def appendTranscriptFragment (prev text : String) : String :=
  prev ++ (if prev = "" then "" else " ") ++ text

/-- App.tsx onmessage handler (lines 88-96): when the server message
carries an input transcription, append its text to the narrative;
otherwise leave the state unchanged. -/
def onmessageUpdate (s : AppState) (inputTranscription : Option String) : AppState :=
  match inputTranscription with
  | some text =>
      { s with formData :=
          { accidentDescription :=
              appendTranscriptFragment s.formData.accidentDescription text } }
  | none => s

/-- Result of running the submit handler: the state reached, the alert
dialogs raised (in order), whether the analysis request was issued, and
whether an exception escaped the handler. -/
structure SubmitResult where
  state : AppState
  alerts : List String
  requestIssued : Bool
  threw : Bool
deriving DecidableEq

/-- App.tsx `handleSubmit` (lines 127-144): prevent default; if
listening, stop listening first; reject a narrative that trims to empty
with an alert and no request; otherwise set loading, await the analysis
call (its resolution is the `outcome` parameter), store the result on
success, alert generically on rejection, and clear loading in finally. -/
def handleSubmit (s : AppState) (f : Faults)
    (outcome : Except Unit TraumaAnalysis) : SubmitResult :=
  let stopRes : StopResult :=
    if s.isListening then stopListening s f
    else { state := s, events := [], threw := false }
  if stopRes.threw then
    { state := stopRes.state, alerts := [], requestIssued := false, threw := true }
  else
    let s1 := stopRes.state
    if jsTrim s1.formData.accidentDescription = "" then
      { state := s1, alerts := ["Please provide an accident description."]
        requestIssued := false, threw := false }
    else
      let s2 := { s1 with loading := true }
      match outcome with
      | Except.ok result =>
        { state := { s2 with analysis := some result, loading := false }
          alerts := [], requestIssued := true, threw := false }
      | Except.error _ =>
        { state := { s2 with loading := false }
          alerts := ["Analysis failed. Please try again."]
          requestIssued := true, threw := false }

/-- App.tsx `getSeverityColor` (lines 146-153): a switch on the raw
severity string; Critical, High and Moderate have explicit cases and
everything else (including 'Low') takes the default green treatment. -/
def getSeverityColor (score : String) : String :=
  if score = "Critical" then "text-red-600 bg-red-100 border-red-200"
  else if score = "High" then "text-orange-600 bg-orange-100 border-orange-200"
  else if score = "Moderate" then "text-yellow-600 bg-yellow-100 border-yellow-200"
  else "text-green-600 bg-green-100 border-green-200"

/-- Fixture: a state in mid-listening holding all three resources (one
stream track, id 0). -/
def fixtureListening : AppState :=
  { loading := false, analysis := none, formData := { accidentDescription := "" }
    isListening := true, sessionRef := true, streamTracks := some [0]
    audioContextRef := true }

/-- Fault environment in which stopping track 0 throws. -/
def trackStopFault : Faults :=
  { trackStopFails := fun t => t == 0, audioCloseFails := false }

/-! ## Helper lemmas about teardown -/

theorem stopTracks_noFaults (ts : List Nat) :
    stopTracks noFaults ts = (ts.map ReleaseEvent.trackStop, false) := by
  induction ts with
  | nil => rfl
  | cons t ts ih => simp [stopTracks, ih, show noFaults.trackStopFails t = false from rfl]

theorem stopTracks_no_sessionClose (f : Faults) (ts : List Nat) :
    ReleaseEvent.sessionClose ∉ (stopTracks f ts).1 := by
  induction ts with
  | nil => simp [stopTracks]
  | cons t ts ih =>
    simp only [stopTracks]
    split
    · simp
    · simp [ih]

theorem stopTracks_no_audioClose (f : Faults) (ts : List Nat) :
    ReleaseEvent.audioContextClose ∉ (stopTracks f ts).1 := by
  induction ts with
  | nil => simp [stopTracks]
  | cons t ts ih =>
    simp only [stopTracks]
    split
    · simp
    · simp [ih]

theorem stopListening_no_sessionClose (s : AppState) (f : Faults) :
    ReleaseEvent.sessionClose ∉ (stopListening s f).events := by
  simp only [stopListening]
  split
  · split_ifs <;> simp [stopTracks_no_sessionClose]
  · split_ifs <;> simp

theorem stopListening_preserves (s : AppState) (f : Faults) :
    (stopListening s f).state.analysis = s.analysis
    ∧ (stopListening s f).state.formData = s.formData
    ∧ (stopListening s f).state.loading = s.loading := by
  refine ⟨?_, ?_, ?_⟩ <;> (simp only [stopListening]; repeat' split) <;> rfl

theorem stopListening_noFaults_run (s : AppState) :
    stopListening s noFaults =
      { state :=
          { s with
              sessionRef := false
              streamTracks := none
              audioContextRef := false
              isListening := false }
        events :=
          (match s.streamTracks with
            | some ts => ts.map ReleaseEvent.trackStop
            | none => []) ++
          (if s.audioContextRef then [ReleaseEvent.audioContextClose] else [])
        threw := false } := by
  obtain ⟨lo, an, fd, il, se, st, ac⟩ := s
  rcases st with _ | ts <;> rcases se <;> rcases ac <;>
    simp [stopListening, stopTracks_noFaults,
      show noFaults.audioCloseFails = false from rfl]

theorem stopListening_threw_no_audioClose (s : AppState) (f : Faults)
    (h : (stopListening s f).threw = true) :
    ReleaseEvent.audioContextClose ∉ (stopListening s f).events := by
  revert h
  simp only [stopListening]
  split
  · split_ifs <;> simp [stopTracks_no_audioClose]
  · split_ifs <;> simp

end RTA

namespace RTA

/-! ## Claim theorems -/

/-- Claim C1, counterexample: the claim that on stop all three held
resources (session, stream tracks, audio context) are released exactly
once, each even if another release step fails, is false on the code.  At
a concrete state holding all three resources: when the single track's
stop throws, the audio processing context is not closed and the
listening flag survives, because the steps run with no error isolation;
and even a fault-free stop emits no close of the live session —
`stopListening` only nulls the session reference. -/
theorem stopListening_claim_false :
    (ReleaseEvent.audioContextClose ∉ (stopListening fixtureListening trackStopFault).events
      ∧ (stopListening fixtureListening trackStopFault).state.audioContextRef = true
      ∧ (stopListening fixtureListening trackStopFault).state.isListening = true)
    ∧ ReleaseEvent.sessionClose ∉ (stopListening fixtureListening noFaults).events := by
  decide

/-- Claim C1 (amended): on stop, the session reference is cleared without
the session ever being closed (under any fault behaviour); the release
steps have no error isolation, so once a step throws, the audio-context
release does not happen; and in a fault-free stop, every held stream
track is stopped exactly once, the audio context is closed exactly once,
all three references are cleared and the listening flag is reset. -/
theorem stopListening_release_spec :
    (∀ (s : AppState) (f : Faults),
        ReleaseEvent.sessionClose ∉ (stopListening s f).events)
    ∧ (∀ (s : AppState) (f : Faults), (stopListening s f).threw = true →
        ReleaseEvent.audioContextClose ∉ (stopListening s f).events)
    ∧ (∀ s : AppState,
        (stopListening s noFaults).threw = false
        ∧ (stopListening s noFaults).events =
            (match s.streamTracks with
              | some ts => ts.map ReleaseEvent.trackStop
              | none => []) ++
            (if s.audioContextRef then [ReleaseEvent.audioContextClose] else [])
        ∧ (stopListening s noFaults).state.sessionRef = false
        ∧ (stopListening s noFaults).state.streamTracks = none
        ∧ (stopListening s noFaults).state.audioContextRef = false
        ∧ (stopListening s noFaults).state.isListening = false) := by
  refine ⟨stopListening_no_sessionClose, stopListening_threw_no_audioClose, ?_⟩
  intro s
  simp [stopListening_noFaults_run]

/-- Witness for `stopListening_release_spec` at a concrete state and
fault environment. -/
theorem stopListening_release_spec_witness :
    ReleaseEvent.audioContextClose ∉ (stopListening fixtureListening trackStopFault).events
    ∧ (stopListening fixtureListening noFaults).threw = false :=
  ⟨stopListening_release_spec.2.1 fixtureListening trackStopFault (by decide),
   (stopListening_release_spec.2.2 fixtureListening).1⟩

/-- Claim C2: `analyzeTraumaData` throws its parse/validation error
exactly when the (defaulted) response text is not parseable JSON; on a
successful parse the parsed value is returned as-is with no further
schema validation; an absent or empty response text is replaced by the
empty-object literal before parsing. -/
theorem analyzeTraumaData_parse_spec {J : Type} (parse : String → Option J)
    (responseText : Option String) :
    (analyzeTraumaData parse responseText =
        Except.error "Invalid analysis data received from AI"
      ↔ parse (effectiveResponseText responseText) = none)
    ∧ (∀ v : J, parse (effectiveResponseText responseText) = some v →
        analyzeTraumaData parse responseText = Except.ok v)
    ∧ ((responseText = none ∨ responseText = some "") →
        effectiveResponseText responseText = "{}") := by
  refine ⟨?_, ?_, ?_⟩
  · constructor
    · intro h
      rcases hp : parse (effectiveResponseText responseText) with _ | v
      · rfl
      · simp [analyzeTraumaData, hp] at h
    · intro hp
      simp [analyzeTraumaData, hp]
  · intro v hp
    simp [analyzeTraumaData, hp]
  · rintro (rfl | rfl) <;> rfl

/-- Witness for `analyzeTraumaData_parse_spec` with a concrete parse
function: an absent response text parses to the empty object, a
non-JSON response text throws the fixed error. -/
theorem analyzeTraumaData_parse_spec_witness :
    analyzeTraumaData (fun s => if s = "{}" then some 0 else none) none = Except.ok 0
    ∧ analyzeTraumaData (fun s => if s = "{}" then some 0 else none) (some "oops") =
        Except.error "Invalid analysis data received from AI" :=
  ⟨(@analyzeTraumaData_parse_spec ℕ (fun s => if s = "{}" then some 0 else none) none).2.1 0
      (by decide),
   (@analyzeTraumaData_parse_spec ℕ (fun s => if s = "{}" then some 0 else none)
      (some "oops")).1.mpr (by decide)⟩

/-- Claim C3: when the analysis call rejects, the submit handler raises
exactly the generic failure alert, leaves the previously displayed
analysis unchanged, and clears the loading flag. -/
theorem handleSubmit_reject_generic_alert (s : AppState) (f : Faults) (e : Unit)
    (h : (handleSubmit s f (Except.error e)).requestIssued = true) :
    (handleSubmit s f (Except.error e)).alerts = ["Analysis failed. Please try again."]
    ∧ (handleSubmit s f (Except.error e)).state.analysis = s.analysis
    ∧ (handleSubmit s f (Except.error e)).state.loading = false := by
  by_cases hl : s.isListening
  · by_cases ht : (stopListening s f).threw = true
    · exfalso
      simp [handleSubmit, hl, ht] at h
    · by_cases hv : jsTrim (stopListening s f).state.formData.accidentDescription = ""
      · exfalso
        simp [handleSubmit, hl, ht, hv] at h
      · simp [handleSubmit, hl, ht, hv, (stopListening_preserves s f).1]
  · by_cases hv : jsTrim s.formData.accidentDescription = ""
    · exfalso
      simp [handleSubmit, hl, hv] at h
    · simp [handleSubmit, hl, hv]

/-- Witness for `handleSubmit_reject_generic_alert` at a concrete
listening state with a non-empty narrative. -/
theorem handleSubmit_reject_generic_alert_witness :
    (handleSubmit { fixtureListening with formData := { accidentDescription := "x" } }
        noFaults (Except.error ())).alerts = ["Analysis failed. Please try again."]
    ∧ (handleSubmit { fixtureListening with formData := { accidentDescription := "x" } }
        noFaults (Except.error ())).state.analysis
      = ({ fixtureListening with formData := { accidentDescription := "x" } } : AppState).analysis
    ∧ (handleSubmit { fixtureListening with formData := { accidentDescription := "x" } }
        noFaults (Except.error ())).state.loading = false :=
  handleSubmit_reject_generic_alert
    { fixtureListening with formData := { accidentDescription := "x" } }
    noFaults () (by decide)

/-- Claim C4: a narrative that trims to the empty string causes the
submit handler to issue no analysis request and to raise exactly the
validation alert. -/
theorem handleSubmit_whitespace_no_request (s : AppState)
    (outcome : Except Unit TraumaAnalysis)
    (h : jsTrim s.formData.accidentDescription = "") :
    (handleSubmit s noFaults outcome).requestIssued = false
    ∧ (handleSubmit s noFaults outcome).alerts =
        ["Please provide an accident description."] := by
  by_cases hl : s.isListening
  · simp [handleSubmit, hl, stopListening_noFaults_run, h]
  · simp [handleSubmit, hl, h]

/-- Witness for `handleSubmit_whitespace_no_request` on the initial
state, whose narrative is empty. -/
theorem handleSubmit_whitespace_no_request_witness :
    (handleSubmit initialState noFaults (Except.error ())).requestIssued = false
    ∧ (handleSubmit initialState noFaults (Except.error ())).alerts =
        ["Please provide an accident description."] :=
  handleSubmit_whitespace_no_request initialState (Except.error ()) (by decide)

/-- Claim C5: the bar color is chosen by strict greater-than thresholds
on the 0-100 integer probability — above 75 the high color, above 40 the
mid color, otherwise the low color — and the rounded probabilities 0.80,
0.50, 0.10 map to high, mid, low while the boundary values 0.75 and 0.40
resolve to the lower tier. -/
theorem getBarColor_spec :
    (∀ p : ℤ, 75 < p → getBarColor p = "#ef4444")
    ∧ (∀ p : ℤ, 40 < p → p ≤ 75 → getBarColor p = "#f59e0b")
    ∧ (∀ p : ℤ, p ≤ 40 → getBarColor p = "#10b981")
    ∧ getBarColor (jsRound ((0.80 : ℚ) * 100)) = "#ef4444"
    ∧ getBarColor (jsRound ((0.50 : ℚ) * 100)) = "#f59e0b"
    ∧ getBarColor (jsRound ((0.10 : ℚ) * 100)) = "#10b981"
    ∧ getBarColor (jsRound ((0.75 : ℚ) * 100)) = "#f59e0b"
    ∧ getBarColor (jsRound ((0.40 : ℚ) * 100)) = "#10b981" := by
  refine ⟨?_, ?_, ?_, by norm_num [getBarColor, jsRound], by norm_num [getBarColor, jsRound],
    by norm_num [getBarColor, jsRound], by norm_num [getBarColor, jsRound],
    by norm_num [getBarColor, jsRound]⟩
  · intro p h
    simp [getBarColor, h]
  · intro p h1 h2
    simp only [getBarColor]
    rw [if_neg (by omega), if_pos h1]
  · intro p h
    simp only [getBarColor]
    rw [if_neg (by omega), if_neg (by omega)]

/-- Witness for `getBarColor_spec` at the concrete integers 80, 50
and 10. -/
theorem getBarColor_spec_witness :
    getBarColor 80 = "#ef4444" ∧ getBarColor 50 = "#f59e0b" ∧ getBarColor 10 = "#10b981" :=
  ⟨getBarColor_spec.1 80 (by decide),
   getBarColor_spec.2.1 50 (by decide) (by decide),
   getBarColor_spec.2.2.1 10 (by decide)⟩

theorem insertChartDesc_perm (x : ChartDatum) (l : List ChartDatum) :
    (insertChartDesc x l).Perm (x :: l) := by
  induction l with
  | nil => simp [insertChartDesc]
  | cons y ys ih =>
    simp only [insertChartDesc]
    split
    · exact List.Perm.refl _
    · exact (List.Perm.cons y ih).trans (List.Perm.swap x y ys)

theorem pairwise_insertChartDesc (x : ChartDatum) (l : List ChartDatum)
    (h : l.Pairwise fun a b => b.prob ≤ a.prob) :
    (insertChartDesc x l).Pairwise fun a b => b.prob ≤ a.prob := by
  induction l with
  | nil => simp [insertChartDesc]
  | cons y ys ih =>
    rw [List.pairwise_cons] at h
    simp only [insertChartDesc]
    split
    · rename_i hlt
      refine List.pairwise_cons.mpr ⟨?_, List.pairwise_cons.mpr ⟨h.1, h.2⟩⟩
      intro z hz
      rcases List.mem_cons.mp hz with rfl | hz
      · exact le_of_lt hlt
      · exact (h.1 z hz).trans (le_of_lt hlt)
    · rename_i hnlt
      refine List.pairwise_cons.mpr ⟨?_, ih h.2⟩
      intro z hz
      rcases List.mem_cons.mp ((insertChartDesc_perm x ys).mem_iff.mp hz) with rfl | hz
      · exact not_lt.mp hnlt
      · exact h.1 z hz

theorem sortChartDesc_aux_pairwise (l acc : List ChartDatum)
    (h : acc.Pairwise fun a b => b.prob ≤ a.prob) :
    (l.foldl (fun acc x => insertChartDesc x acc) acc).Pairwise
      fun a b => b.prob ≤ a.prob := by
  induction l generalizing acc with
  | nil => simpa using h
  | cons x xs ih => exact ih _ (pairwise_insertChartDesc x acc h)

theorem sortChartDesc_pairwise (l : List ChartDatum) :
    (sortChartDesc l).Pairwise fun a b => b.prob ≤ a.prob :=
  sortChartDesc_aux_pairwise l [] (by simp)

theorem sortChartDesc_aux_perm (l acc : List ChartDatum) :
    (l.foldl (fun acc x => insertChartDesc x acc) acc).Perm (l ++ acc) := by
  induction l generalizing acc with
  | nil => simp
  | cons x xs ih =>
    refine (ih (insertChartDesc x acc)).trans ?_
    refine (List.Perm.append_left xs (insertChartDesc_perm x acc)).trans ?_
    exact List.perm_middle

theorem sortChartDesc_perm (l : List ChartDatum) : (sortChartDesc l).Perm l := by
  simpa using sortChartDesc_aux_perm l []

/-- Claim C6: the chart transform maps each prediction to a 0-100
integer (rounding probability times 100, for probabilities in [0,1]) and
outputs the entries sorted in descending order of that integer (a
permutation of the mapped input); for probabilities Head 0.3, Chest 0.9,
Leg 0.5 the rendered order is Chest, Leg, Head. -/
theorem injuryChartData_spec :
    (∀ injuries : List PredictedInjury,
        (injuryChartData injuries).Pairwise fun a b => b.prob ≤ a.prob)
    ∧ (∀ injuries : List PredictedInjury,
        (injuryChartData injuries).Perm (injuries.map chartDatumOf))
    ∧ (∀ i : PredictedInjury, 0 ≤ i.probability → i.probability ≤ 1 →
        0 ≤ (chartDatumOf i).prob ∧ (chartDatumOf i).prob ≤ 100)
    ∧ (injuryChartData
        [ ⟨"Head", "", 3/10, "", ""⟩, ⟨"Chest", "", 9/10, "", ""⟩,
          ⟨"Leg", "", 5/10, "", ""⟩ ]).map ChartDatum.name = ["Chest", "Leg", "Head"] := by
  refine ⟨fun injuries => sortChartDesc_pairwise _,
    fun injuries => sortChartDesc_perm _, ?_, ?_⟩
  · intro i h0 h1
    constructor
    · exact Int.le_floor.mpr (by push_cast; linarith)
    · calc (chartDatumOf i).prob ≤ ⌊(201/2 : ℚ)⌋ :=
            Int.floor_le_floor (by linarith)
      _ = 100 := by norm_num
  · norm_num [injuryChartData, chartDatumOf, sortChartDesc, insertChartDesc, jsRound]

/-- Witness for `injuryChartData_spec` at a concrete prediction with
probability 0.82. -/
theorem injuryChartData_spec_witness :
    0 ≤ (chartDatumOf ⟨"Head", "Concussion", 82/100, "", ""⟩).prob
    ∧ (chartDatumOf ⟨"Head", "Concussion", 82/100, "", ""⟩).prob ≤ 100 :=
  injuryChartData_spec.2.2.1 ⟨"Head", "Concussion", 82/100, "", ""⟩
    (by norm_num) (by norm_num)

/-- Claim C7: the severity display mapping sends each of the four enum
values to its own (pairwise distinct) display treatment, and every
string outside the enum falls back to the default treatment (which is
the same green treatment that 'Low' receives). -/
theorem getSeverityColor_spec (s : String)
    (_h1 : s ≠ "Low") (h2 : s ≠ "Moderate") (h3 : s ≠ "High") (h4 : s ≠ "Critical") :
    getSeverityColor s = "text-green-600 bg-green-100 border-green-200"
    ∧ getSeverityColor "Low" = "text-green-600 bg-green-100 border-green-200"
    ∧ getSeverityColor "Moderate" = "text-yellow-600 bg-yellow-100 border-yellow-200"
    ∧ getSeverityColor "High" = "text-orange-600 bg-orange-100 border-orange-200"
    ∧ getSeverityColor "Critical" = "text-red-600 bg-red-100 border-red-200"
    ∧ [getSeverityColor "Low", getSeverityColor "Moderate", getSeverityColor "High",
        getSeverityColor "Critical"].Nodup := by
  refine ⟨?_, by decide, by decide, by decide, by decide, by decide⟩
  simp [getSeverityColor, h2, h3, h4]

/-- Witness for `getSeverityColor_spec` at a string outside the enum. -/
theorem getSeverityColor_spec_witness :
    getSeverityColor "Unknown" = "text-green-600 bg-green-100 border-green-200" :=
  (getSeverityColor_spec "Unknown" (by decide) (by decide) (by decide) (by decide)).1

/-- Claim C8: a transcript fragment is appended to the narrative with a
single-space separator when the narrative is non-empty and with no
separator when it is empty; from the initial empty narrative, receiving
"patient was" then "hit by a car" leaves exactly
"patient was hit by a car". -/
theorem transcript_append_spec (n t : String) (h : n ≠ "") :
    appendTranscriptFragment n t = n ++ " " ++ t
    ∧ (∀ t2 : String, appendTranscriptFragment "" t2 = t2)
    ∧ (onmessageUpdate (onmessageUpdate initialState (some "patient was"))
        (some "hit by a car")).formData.accidentDescription = "patient was hit by a car" := by
  refine ⟨?_, ?_, by decide⟩
  · simp [appendTranscriptFragment, h]
  · intro t2
    simp [appendTranscriptFragment]

/-- Witness for `transcript_append_spec` at concrete strings. -/
theorem transcript_append_spec_witness :
    appendTranscriptFragment "a" "b" = "a" ++ " " ++ "b" :=
  (transcript_append_spec "a" "b" (by decide)).1

/-- Claim C9: `createBlob` converts each sample by multiplying by 32768
and reducing modulo 2^16 with no clamping — the stored 16-bit value is
congruent to the truncated product modulo 65536 and lies in
[-32768, 32768) — so a full-scale sample of exactly 1.0 becomes -32768;
and the output always carries the fixed PCM MIME type. -/
theorem createBlob_spec :
    (∀ x : ℚ, Int.ModEq 65536 (toInt16 (x * 32768)) (jsTrunc (x * 32768))
      ∧ -32768 ≤ toInt16 (x * 32768) ∧ toInt16 (x * 32768) < 32768)
    ∧ toInt16 ((1 : ℚ) * 32768) = -32768
    ∧ ∀ data : List ℚ, (createBlob data).mimeType = "audio/pcm;rate=16000" := by
  refine ⟨?_, by norm_num [toInt16, jsTrunc], fun data => rfl⟩
  intro x
  have h0 : 0 ≤ jsTrunc (x * 32768) % 65536 := Int.emod_nonneg _ (by norm_num)
  have h1 : jsTrunc (x * 32768) % 65536 < 65536 := Int.emod_lt_of_pos _ (by norm_num)
  simp only [toInt16, Int.ModEq]
  split_ifs with hc <;> refine ⟨by omega, by omega, by omega⟩

/-- Claim C10: a submission made while listening stops the voice session
before validating — the resulting state has the listening flag cleared
and all three resource references released — even when the narrative is
whitespace-only and no analysis request is issued. -/
theorem handleSubmit_stops_listening (s : AppState)
    (outcome : Except Unit TraumaAnalysis)
    (hl : s.isListening = true)
    (hw : jsTrim s.formData.accidentDescription = "") :
    (handleSubmit s noFaults outcome).state.isListening = false
    ∧ (handleSubmit s noFaults outcome).state.sessionRef = false
    ∧ (handleSubmit s noFaults outcome).state.streamTracks = none
    ∧ (handleSubmit s noFaults outcome).state.audioContextRef = false
    ∧ (handleSubmit s noFaults outcome).requestIssued = false := by
  simp [handleSubmit, hl, stopListening_noFaults_run, hw]

/-- Witness for `handleSubmit_stops_listening` at a concrete listening
state with an empty narrative. -/
theorem handleSubmit_stops_listening_witness :
    (handleSubmit fixtureListening noFaults (Except.error ())).state.isListening = false
    ∧ (handleSubmit fixtureListening noFaults (Except.error ())).state.sessionRef = false
    ∧ (handleSubmit fixtureListening noFaults (Except.error ())).state.streamTracks = none
    ∧ (handleSubmit fixtureListening noFaults (Except.error ())).state.audioContextRef = false
    ∧ (handleSubmit fixtureListening noFaults (Except.error ())).requestIssued = false :=
  handleSubmit_stops_listening fixtureListening (Except.error ()) (by decide) (by decide)

end RTA
